import Mathlib

/-!
Verification of the Playground component (`src/website-next/src/components/Playground.tsx`).

The file is shallowly embedded: React element trees become an inductive
type, the pure tree flattener `styleNodeFromYogaNode` becomes a recursive
function, and the stateful UI behaviors (the `isLoaded` one-shot latch,
the `useState`-held snippet text, the scrollbar measurement, the
`getCode` / `nullthrows` copy action) become explicit state-passing
functions over the events that drive them.
-/

namespace Playground

/-- A style value in a `FlexStyle` mapping: the source treats styles as an
opaque mapping from property names to numeric or keyword values and passes
them through verbatim. -/
inductive StyleValue where
  | num (n : Int)
  | kw (s : String)
deriving DecidableEq, Repr

/-- `FlexStyle`: the opaque style-attribute mapping attached to a `Node`
element (e.g. `\x7bwidth: 350, height: 350, padding: 20\x7d`). -/
abbrev FlexStyle := List (String × StyleValue)

/-- A React child as seen by `React.Children.forEach` / `React.Children.count`
inside `Layout` and `styleNodeFromYogaNode`:

* `node style children` — a valid element whose `type` is the `Node` class
  (`React.isValidElement child && child.type === Node` is true);
* `element tag children` — a valid element of some other type
  (`React.isValidElement` true, `child.type !== Node`);
* `textChild s` — a non-element child such as a string or number
  (`React.isValidElement` false). -/
inductive ReactChild where
  | node (style : FlexStyle) (children : List ReactChild)
  | element (tag : String) (children : List ReactChild)
  | textChild (s : String)

/-- `React.isValidElement child` for the modelled children. -/
def isValidElement : ReactChild → Bool
  | ReactChild.node _ _ => true
  | ReactChild.element _ _ => true
  | ReactChild.textChild _ => false

/-- `child.type === Node` for the modelled children. -/
def typeIsNode : ReactChild → Bool
  | ReactChild.node _ _ => true
  | ReactChild.element _ _ => false
  | ReactChild.textChild _ => false

/-- The props of a `Node` element (`NodeProps` in the source): a `style`
and the raw React `children` sequence. -/
structure NodeProps where
  style : FlexStyle
  children : List ReactChild

/-- The output data structure `StyleNode` (from `./YogaViewer`): a `style`
and an ordered list of flattened children. -/
inductive StyleNode where
  | mk (style : FlexStyle) (children : List StyleNode)

/-- Field accessor for `StyleNode.style`. -/
def StyleNode.style : StyleNode → FlexStyle
  | StyleNode.mk s _ => s

/-- Field accessor for `StyleNode.children`. -/
def StyleNode.children : StyleNode → List StyleNode
  | StyleNode.mk _ c => c

mutual

/-- `styleNodeFromYogaNode` (source lines 166–181): copies `props.style`
verbatim and flattens the children. -/
def styleNodeFromYogaNode (yogaNode : NodeProps) : StyleNode :=
  StyleNode.mk yogaNode.style (flattenChildren yogaNode.children)
termination_by (sizeOf yogaNode.children, 1)
decreasing_by
  simp only [Prod.lex_def]
  simp

/-- The `React.Children.forEach` loop body of `styleNodeFromYogaNode`:
for each child in order, if `React.isValidElement(child) && child.type === Node`,
push `styleNodeFromYogaNode(child)`; otherwise skip the child. -/
def flattenChildren : List ReactChild → List StyleNode
  | [] => []
  | ReactChild.node s cs :: rest =>
      styleNodeFromYogaNode ⟨s, cs⟩ :: flattenChildren rest
  | ReactChild.element _ _ :: rest => flattenChildren rest
  | ReactChild.textChild _ :: rest => flattenChildren rest
termination_by l => (sizeOf l, 0)
decreasing_by
  all_goals
    simp only [Prod.lex_def]
    simp
    try omega

end

/-- An optional `config` prop of `Layout`: `\x7buseWebDefaults?: boolean\x7d`. -/
structure LayoutConfig where
  useWebDefaults : Option Bool

/-- What rendering `Layout` produces: `null`; the exception thrown by
`React.Children.only` when the single child is not a valid React element
(it escapes `Layout`, is caught by the live-editor boundary and is shown
in the `LiveError` pane); or (behind the `Suspense` boundary) a single
invocation of the external `LazyYogaViewer` collaborator with a
`rootNode` and a `useWebDefaults` flag. -/
inductive LayoutRender where
  | nullRender
  | childrenOnlyError
  | yogaViewer (rootNode : StyleNode) (useWebDefaults : Option Bool)

/-- `Layout` (source lines 137–157): if `React.Children.count(children) !== 1`
return `null`; then `React.Children.only(children)` — which throws when the
single child is not a valid React element (a string or number child), making
the `!React.isValidElement(child)` half of the line-143 guard unreachable;
then if `child.type !== Node` return `null`; otherwise flatten the child
with `styleNodeFromYogaNode` and render `LazyYogaViewer` with the flattened
tree and `config?.useWebDefaults`. -/
def Layout (children : List ReactChild) (config : Option LayoutConfig) : LayoutRender :=
  if children.length != 1 then LayoutRender.nullRender
  else
    match children.headD (ReactChild.textChild "") with
    | ReactChild.node s cs =>
        LayoutRender.yogaViewer (styleNodeFromYogaNode ⟨s, cs⟩)
          (config.bind fun c => c.useWebDefaults)
    | ReactChild.element _ _ => LayoutRender.nullRender
    | ReactChild.textChild _ => LayoutRender.childrenOnlyError

/-- The built-in default snippet `defaultCode` (source lines 32–38), after
`.trim()`. -/
def defaultCode : String :=
  "<Layout config=\x7b\x7buseWebDefaults: false\x7d\x7d>\n  <Node style=\x7b\x7bwidth: 350, height: 350, padding: 20\x7d\x7d>\n    <Node style=\x7b\x7bflex: 1\x7d\x7d />\n  </Node>\n</Layout>"

/-- The root `Node` element that the default snippet evaluates to: style
`\x7bwidth: 350, height: 350, padding: 20\x7d` with exactly one `Node` child of
style `\x7bflex: 1\x7d` and no grandchildren. -/
def defaultRootNode : NodeProps :=
  ⟨[("width", StyleValue.num 350), ("height", StyleValue.num 350),
      ("padding", StyleValue.num 20)],
    [ReactChild.node [("flex", StyleValue.num 1)] []]⟩

/-- Spec-side helper: the flattening of a single recognized child
(`some` of its recursive flattening for a `Node` element, `none` for any
other child). Used to state that `flattenChildren` is exactly a
`filterMap` over the input children. -/
def toStyleNode : ReactChild → Option StyleNode
  | ReactChild.node s cs => some (styleNodeFromYogaNode ⟨s, cs⟩)
  | ReactChild.element _ _ => none
  | ReactChild.textChild _ => none

mutual

/-- Field-wise (structural) equality of two `StyleNode` trees, as the spec
phrases determinism: equal `style` fields and recursively field-wise equal
children, not pointer identity. -/
def StyleNode.eqv : StyleNode → StyleNode → Bool
  | StyleNode.mk s1 c1, StyleNode.mk s2 c2 =>
      decide (s1 = s2) && StyleNode.eqvChildren c1 c2
termination_by a _ => (sizeOf a, 0)
decreasing_by
  simp only [Prod.lex_def]
  simp

/-- Field-wise equality of two children lists, pointwise and
length-respecting. -/
def StyleNode.eqvChildren : List StyleNode → List StyleNode → Bool
  | [], [] => true
  | a :: as, b :: bs => StyleNode.eqv a b && StyleNode.eqvChildren as bs
  | _, _ => false
termination_by l _ => (sizeOf l, 1)
decreasing_by
  all_goals
    simp only [Prod.lex_def]
    simp
    try omega

end

mutual

/-- Number of nodes in a flattened `StyleNode` tree. -/
def StyleNode.nodeCount : StyleNode → Nat
  | StyleNode.mk _ cs => 1 + StyleNode.nodeCountChildren cs
termination_by n => (sizeOf n, 0)
decreasing_by
  simp only [Prod.lex_def]
  simp

/-- Total node count of a list of flattened `StyleNode` trees. -/
def StyleNode.nodeCountChildren : List StyleNode → Nat
  | [] => 0
  | a :: as => StyleNode.nodeCount a + StyleNode.nodeCountChildren as
termination_by l => (sizeOf l, 1)
decreasing_by
  all_goals
    simp only [Prod.lex_def]
    simp
    try omega

end

mutual

/-- Number of recognized `Node` elements reachable from a React child
through recognized `Node` elements only (the flattener never descends
into an unrecognized child). -/
def ReactChild.nodeCount : ReactChild → Nat
  | ReactChild.node _ cs => 1 + ReactChild.nodeCountChildren cs
  | ReactChild.element _ _ => 0
  | ReactChild.textChild _ => 0
termination_by c => (sizeOf c, 0)
decreasing_by
  simp only [Prod.lex_def]
  simp

/-- Total recognized-`Node` count of a children sequence. -/
def ReactChild.nodeCountChildren : List ReactChild → Nat
  | [] => 0
  | c :: rest => ReactChild.nodeCount c + ReactChild.nodeCountChildren rest
termination_by l => (sizeOf l, 1)
decreasing_by
  all_goals
    simp only [Prod.lex_def]
    simp
    try omega

end

/-- The error message thrown by the `nullthrows` package on `null` /
`undefined`. -/
def nullthrowsMessage : String := "Got unexpected null or undefined"

/-- `nullthrows` (from the imported `nullthrows` package): returns its
argument when present, throws when it is `null` / `undefined`. -/
def nullthrows (x : Option String) : Except String String :=
  match x with
  | some v => Except.ok v
  | none => Except.error nullthrowsMessage

/-- `getCode` (source lines 104–111): the zero-argument callback handed to
`EditorToolbar`. Its argument models the lookup chain
`playgroundRef.current?.querySelector(".prism-code")?.textContent` —
`some t` when the rendered editor code region is found with visible text
content `t`, `none` when any step of the lookup yields nothing. -/
def getCode (prismCodeTextContent : Option String) : Except String String :=
  nullthrows prismCodeTextContent

/-- The `isLoaded` latch at render `n`: `false` until the
`LivePreviewWrapper` mount effect's `setIsLoaded(true)` takes effect at
render `loadRender`, `true` from then on (it is never set back). -/
def isLoadedAt (loadRender n : Nat) : Bool := decide (loadRender ≤ n)

/-- The dependency array `[isLoaded, autoFocus]` of the auto-focus
`useEffect`, as observed at render `n`. -/
def autoFocusEffectDeps (autoFocus : Bool) (loadRender n : Nat) : Bool × Bool :=
  (isLoadedAt loadRender n, autoFocus)

/-- React effect semantics for the auto-focus `useEffect`: the effect body
runs after the first render, and after a later render exactly when its
dependency array differs from the previous render's. -/
def autoFocusEffectRuns (autoFocus : Bool) (loadRender : Nat) : Nat → Bool
  | 0 => true
  | Nat.succ m =>
      decide (autoFocusEffectDeps autoFocus loadRender (m + 1) ≠
        autoFocusEffectDeps autoFocus loadRender m)

/-- Whether the select-and-collapse-caret action fires after render `n`
(source lines 66–77): the effect body must run, and its guard
`isLoaded && autoFocus` together with the DOM guard
`codeElem?.clientHeight && sel != null` (modelled by `domReady`) must
hold. -/
def selectAndCollapseAt (autoFocus domReady : Bool) (loadRender n : Nat) : Bool :=
  autoFocusEffectRuns autoFocus loadRender n &&
    (isLoadedAt loadRender n && autoFocus && domReady)

/-- The scrollbar compensation measured by the `useLayoutEffect` (source
lines 79–89): `offsetWidth - clientWidth` of the editor scroll container. -/
def measureScrollbarWidth (offsetWidth clientWidth : Nat) : Int :=
  (offsetWidth : Int) - (clientWidth : Int)

/-- The `paddingRight` style applied to `EditorToolbar` (source line 103):
`scrollbarWidth + "px"`. -/
def toolbarPaddingRight (scrollbarWidth : Int) : String :=
  toString scrollbarWidth ++ "px"

/-- The events that can reach the `liveCode` piece of state after mount:
an editor `onChange` (which stores the new text wholesale via
`setLiveCode`), or a change of the `code` prop on a re-render (which,
under React `useState` semantics, does not re-run the initializer). -/
inductive PlaygroundEvent where
  | editorChange (newText : String)
  | codePropChange (newCode : Option String)

/-- Whether an event is an editor `onChange`. -/
def PlaygroundEvent.isEditorChange : PlaygroundEvent → Bool
  | PlaygroundEvent.editorChange _ => true
  | PlaygroundEvent.codePropChange _ => false

/-- The `useState(code ?? defaultCode)` initializer (source line 52), run
exactly once at mount. -/
def initialLiveCode (code : Option String) : String := code.getD defaultCode

/-- One step of the `liveCode` state: `onChange` replaces the text in
full; a later change of the `code` prop leaves the state untouched
(React `useState` keeps the stored value across re-renders). -/
def liveCodeStep (liveCode : String) : PlaygroundEvent → String
  | PlaygroundEvent.editorChange t => t
  | PlaygroundEvent.codePropChange _ => liveCode

/-- The held snippet text after a sequence of events following mount with
prop `code`. -/
def liveCodeAfter (code : Option String) (events : List PlaygroundEvent) : String :=
  events.foldl liveCodeStep (initialLiveCode code)

/-! ## Helper lemmas -/

/-- The `forEach` loop is exactly a `filterMap` of the recognized-child
flattening over the input children. -/
theorem flattenChildren_eq_filterMap (cs : List ReactChild) :
    flattenChildren cs = cs.filterMap toStyleNode := by
  induction cs with
  | nil => simp [flattenChildren]
  | cons c rest ih => cases c <;> simp [flattenChildren, toStyleNode, ih]

/-- The number of flattened children equals the number of children passing
the `React.isValidElement(child) && child.type === Node` test. -/
theorem flattenChildren_length (cs : List ReactChild) :
    (flattenChildren cs).length =
      cs.countP (fun c => isValidElement c && typeIsNode c) := by
  induction cs with
  | nil => simp [flattenChildren]
  | cons c rest ih =>
      cases c <;>
        simp [flattenChildren, isValidElement, typeIsNode, List.countP_cons, ih]

mutual

/-- Field-wise equality on `StyleNode` is reflexive. -/
theorem StyleNode.eqv_refl : ∀ n : StyleNode, StyleNode.eqv n n = true
  | StyleNode.mk s cs => by
      simp [StyleNode.eqv, StyleNode.eqvChildren_refl cs]
termination_by n => (sizeOf n, 0)
decreasing_by
  simp only [Prod.lex_def]
  simp

/-- Field-wise equality on children lists is reflexive. -/
theorem StyleNode.eqvChildren_refl : ∀ l : List StyleNode, StyleNode.eqvChildren l l = true
  | [] => by simp [StyleNode.eqvChildren]
  | a :: as => by
      simp [StyleNode.eqvChildren, StyleNode.eqv_refl a,
        StyleNode.eqvChildren_refl as]
termination_by l => (sizeOf l, 1)
decreasing_by
  all_goals
    simp only [Prod.lex_def]
    simp
    try omega

end

mutual

/-- The flattened tree of a `Node` has exactly one node per recognized
`Node` reachable through recognized nodes, plus the root. -/
theorem styleNodeFromYogaNode_nodeCount :
    ∀ (s : FlexStyle) (cs : List ReactChild),
      (styleNodeFromYogaNode ⟨s, cs⟩).nodeCount = 1 + ReactChild.nodeCountChildren cs
  | s, cs => by
      simp [styleNodeFromYogaNode, StyleNode.nodeCount,
        flattenChildren_nodeCount cs]
termination_by _ cs => (sizeOf cs, 1)
decreasing_by
  simp only [Prod.lex_def]
  simp

/-- Node count of the flattened children equals the recognized-`Node`
count of the input children. -/
theorem flattenChildren_nodeCount :
    ∀ cs : List ReactChild,
      StyleNode.nodeCountChildren (flattenChildren cs) = ReactChild.nodeCountChildren cs
  | [] => by simp [flattenChildren, StyleNode.nodeCountChildren, ReactChild.nodeCountChildren]
  | ReactChild.node s cs :: rest => by
      simp [flattenChildren, StyleNode.nodeCountChildren, ReactChild.nodeCountChildren,
        ReactChild.nodeCount, styleNodeFromYogaNode_nodeCount s cs,
        flattenChildren_nodeCount rest]
      try omega
  | ReactChild.element t cs :: rest => by
      simp [flattenChildren, StyleNode.nodeCountChildren, ReactChild.nodeCountChildren,
        ReactChild.nodeCount, flattenChildren_nodeCount rest]
  | ReactChild.textChild s :: rest => by
      simp [flattenChildren, StyleNode.nodeCountChildren, ReactChild.nodeCountChildren,
        ReactChild.nodeCount, flattenChildren_nodeCount rest]
termination_by cs => (sizeOf cs, 0)
decreasing_by
  all_goals
    simp only [Prod.lex_def]
    simp
    try omega

end

/-- Folding events that contain no editor `onChange` leaves the state
untouched. -/
theorem foldl_liveCodeStep_no_editorChange (events : List PlaygroundEvent)
    (init : String) (h : events.all (fun e => !e.isEditorChange) = true) :
    events.foldl liveCodeStep init = init := by
  induction events generalizing init with
  | nil => rfl
  | cons e rest ih =>
      rw [List.all_cons, Bool.and_eq_true] at h
      cases e with
      | editorChange t => simp [PlaygroundEvent.isEditorChange] at h
      | codePropChange c =>
          simpa [liveCodeStep] using ih init h.2

/-! ## Claims -/

/-- C1: the flattener copies the `style` field verbatim, its output
children are exactly the recursively-flattened recognized `Node` children
of the input in the same relative order (a `filterMap`: non-`Node`
children are skipped, nothing is reordered, merged, or synthesized), and
the output children length equals the count of recognized children. -/
theorem styleNodeFromYogaNode_strict_projection (p : NodeProps) :
    (styleNodeFromYogaNode p).style = p.style ∧
    (styleNodeFromYogaNode p).children = p.children.filterMap toStyleNode ∧
    (styleNodeFromYogaNode p).children.length =
      p.children.countP (fun c => isValidElement c && typeIsNode c) := by
  refine ⟨?_, ?_, ?_⟩
  · simp [styleNodeFromYogaNode, StyleNode.style]
  · simp [styleNodeFromYogaNode, StyleNode.children, flattenChildren_eq_filterMap]
  · simp [styleNodeFromYogaNode, StyleNode.children, flattenChildren_length]

/-- Counterexample to C2 as stated: the snippet `<Layout>hello</Layout>`
passes a single non-element child — which is not exactly one recognized
`Node` child — yet `Layout` does not render `null` there:
`React.Children.only` (source line 142) throws before the line-143 guard
can run, and the exception is surfaced to the user through the
`LiveError` pane. -/
theorem Layout_single_text_child_not_null :
    (∀ s cs, ([ReactChild.textChild "hello"] : List ReactChild) ≠
      [ReactChild.node s cs]) ∧
    Layout [ReactChild.textChild "hello"] none ≠ LayoutRender.nullRender := by
  constructor
  · intro s cs hc
    simp at hc
  · simp [Layout]

/-- C2 (amended): for every children value that is not exactly one
recognized `Node` element, the external layout-visualization collaborator
is never invoked; `Layout` renders `null` whenever the failure is the
child count or a single valid element of a non-`Node` type; but when the
single child is not a valid React element, `React.Children.only` throws
and the error is surfaced through the live-editor error pane instead of
a null render. -/
theorem Layout_invalid_children_no_viewer (children : List ReactChild)
    (config : Option LayoutConfig)
    (h : ∀ s cs, children ≠ [ReactChild.node s cs]) :
    (∀ root uwd, Layout children config ≠ LayoutRender.yogaViewer root uwd) ∧
    ((∃ c, children = [c] ∧ isValidElement c = false) →
      Layout children config = LayoutRender.childrenOnlyError) ∧
    ((∀ c, children = [c] → isValidElement c = true) →
      Layout children config = LayoutRender.nullRender) := by
  match children with
  | [] =>
      refine ⟨?_, ?_, ?_⟩
      · intro root uwd
        simp [Layout]
      · rintro ⟨c, hc, _⟩
        simp at hc
      · intro _
        simp [Layout]
  | [ReactChild.node s cs] => exact absurd rfl (h s cs)
  | [ReactChild.element t cs] =>
      refine ⟨?_, ?_, ?_⟩
      · intro root uwd
        simp [Layout]
      · rintro ⟨c, hc, hv⟩
        simp at hc
        subst hc
        simp [isValidElement] at hv
      · intro _
        simp [Layout]
  | [ReactChild.textChild s] =>
      refine ⟨?_, ?_, ?_⟩
      · intro root uwd
        simp [Layout]
      · intro _
        simp [Layout]
      · intro hall
        exact absurd (hall (ReactChild.textChild s) rfl)
          (by simp [isValidElement])
  | a :: b :: rest =>
      refine ⟨?_, ?_, ?_⟩
      · intro root uwd
        simp [Layout]
      · rintro ⟨c, hc, _⟩
        simp at hc
      · intro _
        simp [Layout]

/-- Witness for C2 (amended): a single valid non-`Node` element child
renders `null`. -/
theorem Layout_invalid_children_no_viewer_witness :
    Layout [ReactChild.element "div" []] none = LayoutRender.nullRender :=
  (Layout_invalid_children_no_viewer [ReactChild.element "div" []] none
    (fun s cs hc => by simp at hc)).2.2
    (fun c hc => by
      simp at hc
      subst hc
      rfl)

/-- C3: with exactly one recognized `Node` child, `Layout` invokes the
external layout-visualization collaborator exactly once, with `rootNode`
the flattening of that child and `config?.useWebDefaults` forwarded
unchanged. -/
theorem Layout_valid_child_invokes_viewer (s : FlexStyle)
    (cs : List ReactChild) (config : Option LayoutConfig) :
    Layout [ReactChild.node s cs] config =
      LayoutRender.yogaViewer (styleNodeFromYogaNode ⟨s, cs⟩)
        (config.bind fun c => c.useWebDefaults) := by
  simp [Layout]

/-- C4: flattening the default snippet's tree (root style
width 350 / height 350 / padding 20, one child with flex 1, no
grandchildren) yields exactly the expected two-node value. -/
theorem defaultRootNode_flattens_to_expected :
    styleNodeFromYogaNode defaultRootNode =
      StyleNode.mk
        [("width", StyleValue.num 350), ("height", StyleValue.num 350),
          ("padding", StyleValue.num 20)]
        [StyleNode.mk [("flex", StyleValue.num 1)] []] := by
  simp [defaultRootNode, styleNodeFromYogaNode, flattenChildren]

/-- C5: the flattener is deterministic: applied to two field-wise equal
inputs (in particular, twice to the same input) it yields field-wise
(structurally) identical outputs. Side-effect freedom is visible in the
embedding itself: `styleNodeFromYogaNode` is a pure function of its
argument and cannot modify the input tree. -/
theorem styleNodeFromYogaNode_deterministic (p q : NodeProps)
    (hs : p.style = q.style) (hc : p.children = q.children) :
    StyleNode.eqv (styleNodeFromYogaNode p) (styleNodeFromYogaNode q) = true := by
  have hpq : p = q := by
    cases p
    cases q
    cases hs
    cases hc
    rfl
  rw [hpq]
  exact StyleNode.eqv_refl (styleNodeFromYogaNode q)

/-- Witness for C5 at the default snippet's tree. -/
theorem styleNodeFromYogaNode_deterministic_witness :
    StyleNode.eqv (styleNodeFromYogaNode defaultRootNode)
      (styleNodeFromYogaNode defaultRootNode) = true :=
  styleNodeFromYogaNode_deterministic defaultRootNode defaultRootNode rfl rfl

/-- C6: the flattener is total: an empty children sequence flattens to an
empty children sequence (not an error), and for every input the flattener
produces a well-formed flattened tree whose node count is exactly one
(the root) plus the recognized-`Node` count of the input children — in
particular the recursion terminates on every finite input. -/
theorem styleNodeFromYogaNode_total :
    (∀ s : FlexStyle, styleNodeFromYogaNode ⟨s, []⟩ = StyleNode.mk s []) ∧
    (∀ p : NodeProps,
      (styleNodeFromYogaNode p).nodeCount =
        1 + ReactChild.nodeCountChildren p.children) := by
  constructor
  · intro s
    simp [styleNodeFromYogaNode, flattenChildren]
  · intro p
    cases p with
    | mk s cs => exact styleNodeFromYogaNode_nodeCount s cs

/-- C7: the copy action's text producer returns the rendered editor's
visible text exactly when the lookup finds it, and signals "no content"
(the `nullthrows` error) exactly when the editor code region lookup
yields nothing. -/
theorem getCode_ok_iff_found (q : Option String) :
    (∀ t, (getCode q = Except.ok t ↔ q = some t)) ∧
    (getCode q = Except.error nullthrowsMessage ↔ q = none) := by
  cases q <;> simp [getCode, nullthrows]

/-- C8: with the auto-focus flag requested (and the editor code region
present in the DOM), the select-and-collapse-caret action fires after
exactly one render: the one at which the `isLoaded` latch transitions
from `false` to `true` (`loadRender ≥ 1`, since `isLoaded` starts
`false`); it fires at no earlier render and never again on any later
re-render. -/
theorem autoFocus_selects_exactly_once (loadRender n : Nat) (domReady : Bool)
    (hload : 1 ≤ loadRender) (hdom : domReady = true) :
    selectAndCollapseAt true domReady loadRender n = true ↔ n = loadRender := by
  subst hdom
  cases n with
  | zero =>
      simp [selectAndCollapseAt, autoFocusEffectRuns, isLoadedAt]
      omega
  | succ m =>
      simp [selectAndCollapseAt, autoFocusEffectRuns, autoFocusEffectDeps,
        isLoadedAt, Prod.ext_iff, decide_eq_decide]
      omega

/-- Witness for C8: with the latch firing at render 1, the action fires
at render 1. -/
theorem autoFocus_selects_exactly_once_witness :
    1 ≤ 1 ∧ (selectAndCollapseAt true true 1 1 = true ↔ 1 = 1) :=
  ⟨by decide, autoFocus_selects_exactly_once 1 1 true (by decide) rfl⟩

/-- C9: at every measurement the scrollbar compensation equals the scroll
container's outer width minus its inner width, it is never negative (the
DOM guarantees `clientWidth ≤ offsetWidth`), and it is applied as the
toolbar's right padding in pixels. -/
theorem scrollbar_compensation_nonneg (offsetWidth clientWidth : Nat)
    (h : clientWidth ≤ offsetWidth) :
    measureScrollbarWidth offsetWidth clientWidth =
      (offsetWidth : Int) - (clientWidth : Int) ∧
    0 ≤ measureScrollbarWidth offsetWidth clientWidth ∧
    toolbarPaddingRight (measureScrollbarWidth offsetWidth clientWidth) =
      toString (measureScrollbarWidth offsetWidth clientWidth) ++ "px" := by
  refine ⟨rfl, ?_, rfl⟩
  simp [measureScrollbarWidth]
  omega

/-- Witness for C9 at outer width 17 and inner width 2. -/
theorem scrollbar_compensation_nonneg_witness :
    measureScrollbarWidth 17 2 = (17 : Int) - (2 : Int) ∧
    0 ≤ measureScrollbarWidth 17 2 ∧
    toolbarPaddingRight (measureScrollbarWidth 17 2) =
      toString (measureScrollbarWidth 17 2) ++ "px" :=
  scrollbar_compensation_nonneg 17 2 (by decide)

/-- C10: the held snippet text is initialized exactly once — to the
`code` prop when present, to the built-in default snippet otherwise —
and thereafter changes only through editor `onChange` events: any
sequence of events containing no `onChange` (in particular any later
changes of the `code` prop) leaves the held text at its initial value,
and a single prop-change step is the identity on the state. -/
theorem liveCode_initialized_once (code : Option String)
    (events : List PlaygroundEvent)
    (h : events.all (fun e => !e.isEditorChange) = true) :
    liveCodeAfter code events = initialLiveCode code ∧
    (∀ s, initialLiveCode (some s) = s) ∧
    initialLiveCode none = defaultCode ∧
    (∀ t c, liveCodeStep t (PlaygroundEvent.codePropChange c) = t) := by
  refine ⟨foldl_liveCodeStep_no_editorChange events (initialLiveCode code) h,
    ?_, rfl, ?_⟩
  · intro s
    rfl
  · intro t c
    rfl

/-- Witness for C10: a later change of the `code` prop leaves the held
text at its initial value. -/
theorem liveCode_initialized_once_witness :
    liveCodeAfter (some "abc") [PlaygroundEvent.codePropChange (some "xyz")] =
      initialLiveCode (some "abc") :=
  (liveCode_initialized_once (some "abc")
    [PlaygroundEvent.codePropChange (some "xyz")] (by rfl)).1

end Playground
